import Mathlib

/-!
Verification development for the watsonwork-yelp bot (src/app.js and its
yelp client module). The JavaScript source is shallowly embedded:

* the in-memory conversation map `inMemoryState` becomes a function
  `StateMap := String → Option ConvEntry`;
* each webhook handler becomes a pure function from the inbound event's
  fields and the current map to a `HandlerResult` recording the new map,
  the outbound messages posted via `sendMessage`, the Yelp search
  requests issued via `searchYelp`, and whether the handler crashed on a
  property access (a thrown TypeError in JS);
* the asynchronous Yelp search callback is modelled by passing the
  provider's `SearchResponse` as an explicit argument;
* `crypto.createHmac('sha256', …)` is embedded as an executable
  HMAC-SHA256 over byte lists (`Nat` bytes, arithmetic mod 2^32).
-/

/-! ### Constants from src/app.js -/

/-- `PROMPT_TO_LIST` in src/app.js. -/
def PROMPT_TO_LIST : String := "Would you like to search for restaurants?"

/-- `WHICH_ZIP` in src/app.js. -/
def WHICH_ZIP : String := "Which zipcode should we search in?"

/-- `CANCEL_REQUEST` in src/app.js. -/
def CANCEL_REQUEST : String := "No problem! Let us know if you need to later!"

/-! ### The confirmation regular expression

`CONFIRMATION_REGEX = /((o)?k|y(es)?)/i` in src/app.js.  Its language is
the four words `ok`, `k`, `yes`, `y`; JavaScript's `String.match` with an
unanchored regex searches for a match at every position of the string, and
the `i` flag compares case-insensitively. -/

/-- The words generated by the regular expression `((o)?k|y(es)?)`. -/
def confirmationWords : List (List Char) :=
  [['o', 'k'], ['k'], ['y', 'e', 's'], ['y']]

/-- Truthiness of `content.match(CONFIRMATION_REGEX)`: some word of the
regex's language occurs at some position of the (lower-cased) content. -/
def confirmationMatch (content : String) : Bool :=
  (content.data.map Char.toLower).tails.any
    (fun t => confirmationWords.any (fun w => List.isPrefixOf w t))

/-! ### Conversation state -/

/-- One entry of `inMemoryState`: the object `{ state, zip }`. -/
structure ConvEntry where
  state : Nat
  zip : String
deriving DecidableEq, Repr

/-- The in-memory conversation map, keyed by space id; `none` means the
key is absent (the conversation is idle). -/
def StateMap : Type := String → Option ConvEntry

/-- The empty map (`inMemoryState = {}` at startup). -/
def emptyState : StateMap := fun _ => none

/-- Assignment `inMemoryState[k] = v` (or `delete inMemoryState[k]` for
`v = none`). -/
def setEntry (σ : StateMap) (k : String) (v : Option ConvEntry) : StateMap :=
  fun k2 => if k2 = k then v else σ k2

/-- Mutation `inMemoryState[k].zip = z`, leaving other keys untouched. -/
def setZip (σ : StateMap) (k : String) (z : String) : StateMap :=
  fun k2 => if k2 = k then (σ k).map (fun e => { e with zip := z }) else σ k2

/-! ### The Yelp client (yelp module) -/

/-- A category object of a Yelp business (only `title` is used). -/
structure Category where
  title : String
deriving DecidableEq, Repr

/-- A Yelp business as rendered by `listRestaurants`.  The numeric
`rating` is modelled by its decimal rendering (the code only interpolates
it into a template string). -/
structure Business where
  name : String
  url : String
  categories : List Category
  rating : String
deriving DecidableEq, Repr

/-- The parsed body of a Yelp search response. -/
structure SearchResponse where
  businesses : List Business
deriving DecidableEq, Repr

/-- The query string `searchYelp` sends:
`{ location: zip, term: "food", limit: 5 }`. -/
structure SearchReq where
  location : String
  term : String
  limit : Nat
deriving DecidableEq, Repr

/-- The request `searchYelp zip` issues against `v3/businesses/search`. -/
def searchYelpReq (zip : String) : SearchReq :=
  { location := zip, term := "food", limit := 5 }

/-! ### Handler results -/

/-- The observable outcome of running one webhook handler: the new
conversation map, the messages posted with `sendMessage` (space id and
body, in order), the Yelp searches issued, and whether the handler threw
on a property access before finishing. -/
structure HandlerResult where
  newState : StateMap
  sent : List (String × String)
  searches : List SearchReq
  crashed : Bool

/-- `ignoreMessage`: reply 200 with no body; no state change, no sends. -/
def ignored (σ : StateMap) : HandlerResult :=
  { newState := σ, sent := [], searches := [], crashed := false }

/-! ### listRestaurants (src/app.js lines 61-80) -/

/-- The bullet `listRestaurants` appends for one business:
`* [name](url) - categories[0].title (Rated: rating stars)\n`.
`categories[0].title` on an empty list is a TypeError: `none`. -/
def renderBusiness (b : Business) : Option String :=
  match b.categories with
  | [] => none
  | c :: _ =>
      some ("* [" ++ b.name ++ "](" ++ b.url ++ ")" ++ " - " ++ c.title ++
        " (Rated: " ++ b.rating ++ " stars)\n")

/-- The bullets the `forEach` loop appends, in order; `none` as soon as
its body throws on some business. -/
def renderBullets : List Business → Option (List String)
  | [] => some []
  | b :: t =>
      match renderBusiness b with
      | none => none
      | some s => (renderBullets t).map (fun ls => s :: ls)

/-- The full message built from a search response, `none` when the
`forEach` body throws on some business. -/
def renderRestaurants (resp : SearchResponse) : Option String :=
  (renderBullets resp.businesses).map
    (fun bullets => "Here are some options:\n\n" ++ String.join bullets)

/-- `listRestaurants(spaceId)`: with no zip stored, move the entry to
state 2 and prompt for the zip; otherwise issue the Yelp search and, on
the response, post the rendered list and delete the entry.  A crash while
rendering leaves the map untouched with nothing sent. -/
def listRestaurants (spaceId : String) (σ : StateMap) (resp : SearchResponse) :
    HandlerResult :=
  match σ spaceId with
  | none => { newState := σ, sent := [], searches := [], crashed := true }
  | some e =>
      if e.zip = "" then
        { newState := setEntry σ spaceId (some { e with state := 2 }),
          sent := [(spaceId, WHICH_ZIP)], searches := [], crashed := false }
      else
        match renderRestaurants resp with
        | some msg =>
            { newState := setEntry σ spaceId none,
              sent := [(spaceId, msg)],
              searches := [searchYelpReq e.zip], crashed := false }
        | none =>
            { newState := σ, sent := [],
              searches := [searchYelpReq e.zip], crashed := true }

/-! ### checkResponse (src/app.js lines 82-108) -/

/-- JavaScript truthiness of the `state` field read off the map:
`undefined` (missing entry) and `0` are falsy. -/
def jsFalsy : Option Nat → Bool
  | none => true
  | some n => n == 0

/-- `checkResponse` for a `message-created` event with the given
`spaceId`, `userId` and `content`.  `appId` is the configured application
id; `resp` is the response the Yelp search would return if issued. -/
def checkResponse (appId spaceId userId content : String) (σ : StateMap)
    (resp : SearchResponse) : HandlerResult :=
  let stateOpt := (σ spaceId).map ConvEntry.state
  if jsFalsy stateOpt || userId == appId then
    ignored σ
  else if stateOpt == some 1 && !(confirmationMatch content) then
    { newState := setEntry σ spaceId none,
      sent := [(spaceId, CANCEL_REQUEST)], searches := [], crashed := false }
  else
    let σ2 := if stateOpt == some 2 then setZip σ spaceId content else σ
    listRestaurants spaceId σ2 resp

/-! ### SHA-256 and HMAC (the `crypto` calls in verifyCallback)

An executable SHA-256 over lists of byte values (`Nat < 256`), word
arithmetic carried out on `Nat` modulo `2^32`. -/

/-- Truncate to a 32-bit word. -/
def w32 (n : Nat) : Nat := n % 4294967296

/-- Right rotation of a 32-bit word by `r` bits. -/
def rotr32 (r x : Nat) : Nat := w32 ((x >>> r) ||| (x <<< (32 - r)))

/-- Big-endian byte rendering of `n` on `k` bytes. -/
def beBytes (k n : Nat) : List Nat :=
  (List.range k).map (fun i => (n >>> (8 * (k - 1 - i))) % 256)

/-- SHA-256 message padding: append `0x80`, zeros, and the 64-bit
big-endian bit length, reaching a multiple of 64 bytes. -/
def sha256Pad (msg : List Nat) : List Nat :=
  let zeros := (64 - (msg.length + 9) % 64) % 64
  msg ++ [0x80] ++ List.replicate zeros 0 ++ beBytes 8 (8 * msg.length)

/-- Group bytes into big-endian 32-bit words (length assumed divisible
by 4). -/
def toWords : List Nat → List Nat
  | b0 :: b1 :: b2 :: b3 :: rest =>
      (((b0 * 256 + b1) * 256 + b2) * 256 + b3) :: toWords rest
  | _ => []

/-- The SHA-256 round constants (FIPS 180-4), written in decimal. -/
def sha256K : List Nat :=
  [1116352408, 1899447441, 3049323471, 3921009573, 961987163,
   1508970993, 2453635748, 2870763221, 3624381080, 310598401,
   607225278, 1426881987, 1925078388, 2162078206, 2614888103,
   3248222580, 3835390401, 4022224774, 264347078, 604807628,
   770255983, 1249150122, 1555081692, 1996064986, 2554220882,
   2821834349, 2952996808, 3210313671, 3336571891, 3584528711,
   113926993, 338241895, 666307205, 773529912, 1294757372,
   1396182291, 1695183700, 1986661051, 2177026350, 2456956037,
   2730485921, 2820302411, 3259730800, 3345764771, 3516065817,
   3600352804, 4094571909, 275423344, 430227734, 506948616,
   659060556, 883997877, 958139571, 1322822218, 1537002063,
   1747873779, 1955562222, 2024104815, 2227730452, 2361852424,
   2428436474, 2756734187, 3204031479, 3329325298]

/-- The eight working variables of the compression function. -/
structure Sha256State where
  a : Nat
  b : Nat
  c : Nat
  d : Nat
  e : Nat
  f : Nat
  g : Nat
  h : Nat
deriving Repr

/-- The SHA-256 initial hash value (FIPS 180-4), written in decimal. -/
def sha256Init : Sha256State :=
  ⟨1779033703, 3144134277, 1013904242, 2773480762,
   1359893119, 2600822924, 528734635, 1541459225⟩

/-- Append the next word of the message schedule. -/
def sha256Extend (w : Array Nat) : Array Nat :=
  let i := w.size
  let s0v := w.getD (i - 15) 0
  let s1v := w.getD (i - 2) 0
  let s0 := (rotr32 7 s0v) ^^^ (rotr32 18 s0v) ^^^ (s0v >>> 3)
  let s1 := (rotr32 17 s1v) ^^^ (rotr32 19 s1v) ^^^ (s1v >>> 10)
  w.push (w32 (w.getD (i - 16) 0 + s0 + w.getD (i - 7) 0 + s1))

/-- Extend the 16 words of a block to the 64-word message schedule. -/
def sha256Schedule (w : Array Nat) : Array Nat :=
  (List.range 48).foldl (fun acc _ => sha256Extend acc) w

/-- One round of the SHA-256 compression function. -/
def sha256Round (st : Sha256State) (kw : Nat × Nat) : Sha256State :=
  let s1 := (rotr32 6 st.e) ^^^ (rotr32 11 st.e) ^^^ (rotr32 25 st.e)
  let ch := (st.e &&& st.f) ^^^ ((0xffffffff ^^^ st.e) &&& st.g)
  let t1 := w32 (st.h + s1 + ch + kw.1 + kw.2)
  let s0 := (rotr32 2 st.a) ^^^ (rotr32 13 st.a) ^^^ (rotr32 22 st.a)
  let mj := (st.a &&& st.b) ^^^ (st.a &&& st.c) ^^^ (st.b &&& st.c)
  let t2 := w32 (s0 + mj)
  ⟨w32 (t1 + t2), st.a, st.b, st.c, w32 (st.d + t1), st.e, st.f, st.g⟩

/-- Compress one 16-word block into the running hash. -/
def sha256Block (h0 : Sha256State) (block : List Nat) : Sha256State :=
  let ws := (sha256Schedule block.toArray).toList
  let st := (sha256K.zip ws).foldl sha256Round h0
  ⟨w32 (h0.a + st.a), w32 (h0.b + st.b), w32 (h0.c + st.c), w32 (h0.d + st.d),
   w32 (h0.e + st.e), w32 (h0.f + st.f), w32 (h0.g + st.g), w32 (h0.h + st.h)⟩

/-- SHA-256 digest (32 bytes) of a byte list. -/
def sha256 (msg : List Nat) : List Nat :=
  let ws := toWords (sha256Pad msg)
  let nBlocks := ws.length / 16
  let blocks := (List.range nBlocks).map
    (fun i => (List.range 16).map (fun j => ws.getD (16 * i + j) 0))
  let hf := blocks.foldl sha256Block sha256Init
  beBytes 4 hf.a ++ beBytes 4 hf.b ++ beBytes 4 hf.c ++ beBytes 4 hf.d ++
  beBytes 4 hf.e ++ beBytes 4 hf.f ++ beBytes 4 hf.g ++ beBytes 4 hf.h

/-- HMAC-SHA256 (RFC 2104) over byte lists, block size 64. -/
def hmacSha256 (key msg : List Nat) : List Nat :=
  let k0 := if 64 < key.length then sha256 key else key
  let kp := k0 ++ List.replicate (64 - k0.length) 0
  sha256 ((kp.map (fun b => b ^^^ 0x5c)) ++
    sha256 ((kp.map (fun b => b ^^^ 0x36)) ++ msg))

/-- UTF-8 encoding of one character (how Node's `crypto.update` and
`JSON.stringify` byte-serialise JavaScript strings). -/
def utf8Char (c : Char) : List Nat :=
  let n := c.toNat
  if n < 0x80 then [n]
  else if n < 0x800 then
    [0xc0 ||| (n >>> 6), 0x80 ||| (n &&& 0x3f)]
  else if n < 0x10000 then
    [0xe0 ||| (n >>> 12), 0x80 ||| ((n >>> 6) &&& 0x3f), 0x80 ||| (n &&& 0x3f)]
  else
    [0xf0 ||| (n >>> 18), 0x80 ||| ((n >>> 12) &&& 0x3f),
     0x80 ||| ((n >>> 6) &&& 0x3f), 0x80 ||| (n &&& 0x3f)]

/-- UTF-8 bytes of a string. -/
def strBytes (s : String) : List Nat := (s.data.map utf8Char).flatten

/-- Lower-case hexadecimal digit. -/
def hexDigit (n : Nat) : Char :=
  if n < 10 then Char.ofNat (48 + n) else Char.ofNat (87 + n)

/-- Lower-case hexadecimal rendering of a byte list (`digest('hex')`). -/
def toHex (bs : List Nat) : String :=
  String.mk ((bs.map (fun b => [hexDigit (b / 16), hexDigit (b % 16)])).flatten)

/-- `crypto.createHmac('sha256', key).update(msg).digest('hex')`. -/
def hmacSha256Hex (key msg : String) : String :=
  toHex (hmacSha256 (strBytes key) (strBytes msg))

/-! ### verifyCallback (src/app.js lines 43-59) -/

/-- `JSON.stringify` escaping of one character inside a string literal. -/
def jsonEscapeChar (c : Char) : List Char :=
  if c = '"' then ['\\', '"']
  else if c = '\\' then ['\\', '\\']
  else if c = '\x08' then ['\\', 'b']
  else if c = '\t' then ['\\', 't']
  else if c = '\n' then ['\\', 'n']
  else if c = '\x0c' then ['\\', 'f']
  else if c = '\r' then ['\\', 'r']
  else if c.toNat < 0x20 then
    ['\\', 'u', '0', '0', hexDigit (c.toNat / 16), hexDigit (c.toNat % 16)]
  else [c]

/-- `JSON.stringify` of a JavaScript string. -/
def jsonStringifyString (s : String) : String :=
  "\"" ++ String.mk ((s.data.map jsonEscapeChar).flatten) ++ "\""

/-- `JSON.stringify(\x7b response: challenge \x7d)`: the serialized body
`verifyCallback` sends back. -/
def stringifyBody (challenge : String) : String :=
  "\x7b\"response\":" ++ jsonStringifyString challenge ++ "\x7d"

/-- The observable response of `verifyCallback`: the `X-OUTBOUND-TOKEN`
header and the response body. -/
structure VerifyResponse where
  token : String
  body : String
deriving DecidableEq, Repr

/-- `verifyCallback`: serialize `\x7b response: challenge \x7d`, HMAC it
with the webhook secret, set the header, send the body. -/
def verifyCallback (webhookSecret challenge : String) : VerifyResponse :=
  let bodyToSend := stringifyBody challenge
  { token := hmacSha256Hex webhookSecret bodyToSend, body := bodyToSend }

/-! ### The two OAuth authentications

`authenticateApp` (src/app.js lines 150-175) and `authenticate` (yelp
module): both POST a client-credentials grant and, in the response
callback, call `process.exit(1)` unless the status is 200, else hand
`JSON.parse(body).access_token` to the continuation. -/

/-- An OAuth token response, its body modelled by the `access_token`
field that `JSON.parse(body).access_token` extracts. -/
structure AuthResponse where
  statusCode : Nat
  accessToken : String
deriving DecidableEq, Repr

/-- What an authentication callback does: terminate the process or
invoke the continuation with a token. -/
inductive AuthOutcome where
  | exit (code : Nat)
  | callback (token : String)
deriving DecidableEq, Repr

/-- `authenticateApp`'s response callback (Watson Work OAuth). -/
def authenticateApp (resp : AuthResponse) : AuthOutcome :=
  if resp.statusCode ≠ 200 then .exit 1 else .callback resp.accessToken

/-- `authenticate`'s response callback (Yelp OAuth); the code is
identical to `authenticateApp`'s. -/
def authenticate (resp : AuthResponse) : AuthOutcome :=
  if resp.statusCode ≠ 200 then .exit 1 else .callback resp.accessToken

/-! ### checkAnnotations (src/app.js lines 110-132) -/

/-- The parsed `annotationPayload` (only `lens` and `category` are
read). -/
structure AnnPayload where
  lens : String
  category : String
deriving DecidableEq, Repr

/-- `checkAnnotations` for a `message-annotation-added` event: ignore
anything that is not a `message-focus`; on a `Food` / `Request` focus,
overwrite the conversation entry with `{ state: 1, zip: '' }` and post
the confirmation prompt. -/
def checkAnnotations (spaceId annType : String) (payload : AnnPayload)
    (σ : StateMap) : HandlerResult :=
  if annType ≠ "message-focus" then
    ignored σ
  else if payload.lens = "Food" ∧ payload.category = "Request" then
    { newState := setEntry σ spaceId (some { state := 1, zip := "" }),
      sent := [(spaceId, PROMPT_TO_LIST)], searches := [], crashed := false }
  else
    { newState := σ, sent := [], searches := [], crashed := false }

/-! ### Sample inputs used by witnesses and counterexamples -/

/-- An empty Yelp response. -/
def respEmpty : SearchResponse := ⟨[]⟩

/-- A business with one category. -/
def goodBusiness : Business :=
  { name := "Pauls Pizza", url := "https://example.com/pauls",
    categories := [⟨"Pizza"⟩], rating := "4.5" }

/-- A one-business response where rendering succeeds. -/
def goodResp : SearchResponse := ⟨[goodBusiness]⟩

/-- A business whose `categories` list is empty. -/
def badBusiness : Business :=
  { name := "No Category Cafe", url := "https://example.com/ncc",
    categories := [], rating := "3.0" }

/-- A response on which `categories[0].title` throws. -/
def badResp : SearchResponse := ⟨[badBusiness]⟩

/-- A map with one conversation at the confirmation stage. -/
def confirmMap : StateMap := setEntry emptyState "space-1" (some ⟨1, ""⟩)

/-- A map with one conversation awaiting a zip (none stored yet). -/
def awaitZipMap : StateMap := setEntry emptyState "space-1" (some ⟨2, ""⟩)

/-- A map with one conversation at the zip-collection stage, zip stored. -/
def zipMap : StateMap := setEntry emptyState "space-1" (some ⟨2, "10001"⟩)

/-! ### Helper lemmas -/

/-- A `message-created` event for a conversation with no stored entry is
ignored: `!state` is true, so `checkResponse` stops at `ignoreMessage`. -/
theorem checkResponse_of_noEntry (appId spaceId userId content : String)
    (σ : StateMap) (resp : SearchResponse) (h : σ spaceId = none) :
    checkResponse appId spaceId userId content σ resp = ignored σ := by
  simp [checkResponse, h, jsFalsy]

/-- The bullet format of §4.3 of the spec, reading the first category
with a dummy default; compared against `renderBusiness` (the code). -/
def specBullet (b : Business) : String :=
  "* [" ++ b.name ++ "](" ++ b.url ++ ")" ++ " - " ++
    (b.categories.headD ⟨""⟩).title ++ " (Rated: " ++ b.rating ++ " stars)\n"

/-- When every business has a category, the `forEach` body never throws
and produces exactly one `specBullet` per business, in order. -/
theorem renderBullets_eq (l : List Business)
    (h : ∀ b ∈ l, b.categories ≠ []) :
    renderBullets l = some (l.map specBullet) := by
  induction l with
  | nil => rfl
  | cons b t ih =>
    obtain ⟨c, cs, hc⟩ : ∃ c cs, b.categories = c :: cs := by
      cases hcb : b.categories with
      | nil => exact absurd hcb (h b (List.mem_cons_self b t))
      | cons c cs => exact ⟨c, cs, rfl⟩
    have ht : ∀ x ∈ t, x.categories ≠ [] :=
      fun x hx => h x (List.mem_cons_of_mem b hx)
    simp [renderBullets, renderBusiness, hc, ih ht, specBullet]

/-! ### The claims -/

/-- C1 (amended): at the confirmation stage, a reply matching
`CONFIRMATION_REGEX` (a case-insensitive UNANCHORED search, so any
content containing `k`/`ok`/`y`/`yes` anywhere matches) advances the
conversation to the zip-collection step; a reply with no match anywhere
deletes the entry and sends the cancellation message exactly once. -/
theorem C1_confirmation_reply (appId spaceId userId content : String)
    (σ : StateMap) (resp : SearchResponse)
    (hstate : σ spaceId = some ⟨1, ""⟩) (huser : userId ≠ appId) :
    (confirmationMatch content = false →
      (checkResponse appId spaceId userId content σ resp).newState spaceId = none ∧
      (checkResponse appId spaceId userId content σ resp).sent =
        [(spaceId, CANCEL_REQUEST)]) ∧
    (confirmationMatch content = true →
      (checkResponse appId spaceId userId content σ resp).newState spaceId =
        some ⟨2, ""⟩ ∧
      (checkResponse appId spaceId userId content σ resp).sent =
        [(spaceId, WHICH_ZIP)]) := by
  constructor
  · intro hm
    simp [checkResponse, hstate, jsFalsy, hm, huser, setEntry]
  · intro hm
    simp [checkResponse, hstate, jsFalsy, hm, huser, listRestaurants, setEntry]

/-- C1 witness: "yes" at the confirmation stage advances to state 2 and
prompts for the zip. -/
theorem C1_witness :
    (checkResponse "app" "space-1" "user" "yes" confirmMap respEmpty).newState
      "space-1" = some ⟨2, ""⟩ ∧
    (checkResponse "app" "space-1" "user" "yes" confirmMap respEmpty).sent =
      [("space-1", WHICH_ZIP)] :=
  (C1_confirmation_reply "app" "space-1" "user" "yes" confirmMap respEmpty
    (by decide) (by decide)).2 (by decide)

/-- C1 counterexample: the claim classifies "maybe" as non-matching and
says it cancels; in the code `"maybe".match(/((o)?k|y(es)?)/i)` is truthy
(the unanchored regex finds the `y`), so the conversation advances to the
zip prompt instead of being deleted with a cancellation. -/
theorem C1_counterexample :
    confirmationMatch "maybe" = true ∧
    (checkResponse "app" "space-1" "user" "maybe" confirmMap respEmpty).newState
      "space-1" = some ⟨2, ""⟩ ∧
    (checkResponse "app" "space-1" "user" "maybe" confirmMap respEmpty).sent =
      [("space-1", WHICH_ZIP)] := by
  refine ⟨by decide, by decide, by decide⟩

/-- C2: a message from the bot's own app id, or for a space with no
stored entry, changes nothing and triggers no send and no search. -/
theorem C2_ignored_messages (appId spaceId userId content : String)
    (σ : StateMap) (resp : SearchResponse)
    (h : userId = appId ∨ σ spaceId = none) :
    checkResponse appId spaceId userId content σ resp = ignored σ := by
  rcases h with h | h
  · simp [checkResponse, h]
  · exact checkResponse_of_noEntry appId spaceId userId content σ resp h

/-- C2 witness: the bot's own message in a mid-flow conversation is
ignored. -/
theorem C2_witness :
    checkResponse "app" "space-1" "app" "yes" confirmMap respEmpty =
      ignored confirmMap :=
  C2_ignored_messages "app" "space-1" "app" "yes" confirmMap respEmpty
    (Or.inl rfl)

/-- C3: a `message-focus` annotation with lens `Food` and category
`Request` on an idle conversation creates the entry `{state: 1, zip: ''}`
and sends exactly the confirmation prompt; any other annotation type,
lens, or category leaves the map unchanged and sends nothing. -/
theorem C3_intent_detection (spaceId annType lens category : String)
    (σ : StateMap) (_hidle : σ spaceId = none) :
    (annType = "message-focus" → lens = "Food" → category = "Request" →
      (checkAnnotations spaceId annType ⟨lens, category⟩ σ).newState spaceId =
        some ⟨1, ""⟩ ∧
      (checkAnnotations spaceId annType ⟨lens, category⟩ σ).sent =
        [(spaceId, PROMPT_TO_LIST)]) ∧
    (annType ≠ "message-focus" ∨ lens ≠ "Food" ∨ category ≠ "Request" →
      (checkAnnotations spaceId annType ⟨lens, category⟩ σ).newState = σ ∧
      (checkAnnotations spaceId annType ⟨lens, category⟩ σ).sent = []) := by
  constructor
  · intro h1 h2 h3
    subst h1; subst h2; subst h3
    simp [checkAnnotations, setEntry]
  · intro h
    by_cases hA : annType = "message-focus"
    · subst hA
      have hcond : ¬(lens = "Food" ∧ category = "Request") := by
        rcases h with h | h | h
        · exact absurd rfl h
        · exact fun hc => h hc.1
        · exact fun hc => h hc.2
      simp [checkAnnotations, hcond]
    · simp [checkAnnotations, hA, ignored]

/-- C3 witness: a Food/Request focus on an idle conversation creates the
confirmation-stage entry and sends the prompt. -/
theorem C3_witness :
    (checkAnnotations "space-1" "message-focus" ⟨"Food", "Request"⟩
      emptyState).newState "space-1" = some ⟨1, ""⟩ ∧
    (checkAnnotations "space-1" "message-focus" ⟨"Food", "Request"⟩
      emptyState).sent = [("space-1", PROMPT_TO_LIST)] :=
  (C3_intent_detection "space-1" "message-focus" "Food" "Request" emptyState
    rfl).1 rfl rfl rfl

/-- C4: an intent-triggering annotation overwrites whatever entry exists
for the space, resetting it to `{state: 1, zip: ''}` unconditionally. -/
theorem C4_overwrite (spaceId : String) (σ : StateMap) (e : ConvEntry)
    (_hexist : σ spaceId = some e) :
    (checkAnnotations spaceId "message-focus" ⟨"Food", "Request"⟩
      σ).newState spaceId = some ⟨1, ""⟩ ∧
    (checkAnnotations spaceId "message-focus" ⟨"Food", "Request"⟩
      σ).sent = [(spaceId, PROMPT_TO_LIST)] := by
  simp [checkAnnotations, setEntry]

/-- C4 witness: a zip-collection-stage entry with a stored zip is reset
to the confirmation stage with an empty zip. -/
theorem C4_witness :
    (checkAnnotations "space-1" "message-focus" ⟨"Food", "Request"⟩
      zipMap).newState "space-1" = some ⟨1, ""⟩ ∧
    (checkAnnotations "space-1" "message-focus" ⟨"Food", "Request"⟩
      zipMap).sent = [("space-1", PROMPT_TO_LIST)] :=
  C4_overwrite "space-1" zipMap ⟨2, "10001"⟩ (by decide)

/-- C5: at the zip-collection stage, a non-empty reply is stored verbatim
as the zip, and the search issued carries exactly that location with the
fixed term "food" and limit 5. -/
theorem C5_zip_search (appId spaceId userId content z : String)
    (σ : StateMap) (resp : SearchResponse)
    (hstate : σ spaceId = some ⟨2, z⟩) (huser : userId ≠ appId)
    (hcontent : content ≠ "") :
    (setZip σ spaceId content) spaceId = some ⟨2, content⟩ ∧
    (checkResponse appId spaceId userId content σ resp).searches =
      [searchYelpReq content] ∧
    searchYelpReq content = { location := content, term := "food", limit := 5 } := by
  have hz2 : (setZip σ spaceId content) spaceId = some ⟨2, content⟩ := by
    simp [setZip, hstate]
  refine ⟨hz2, ?_, rfl⟩
  simp only [checkResponse, hstate]
  simp only [Option.map_some, jsFalsy]
  cases hr : renderRestaurants resp <;>
    simp [huser, listRestaurants, hz2, hcontent, hr]

/-- C5 witness: reply "10001" at the zip-collection stage triggers the
search with location "10001", term "food", limit 5. -/
theorem C5_witness :
    (setZip awaitZipMap "space-1" "10001") "space-1" = some ⟨2, "10001"⟩ ∧
    (checkResponse "app" "space-1" "user" "10001" awaitZipMap goodResp).searches =
      [searchYelpReq "10001"] ∧
    searchYelpReq "10001" =
      { location := "10001", term := "food", limit := 5 } :=
  C5_zip_search "app" "space-1" "user" "10001" "" awaitZipMap goodResp
    (by decide) (by decide) (by decide)

/-- C6: with a zip stored and every business carrying a category, the
search response renders to one message: the header followed by exactly
one bullet per business in order, each bullet being
`* [name](url) - first-category-title (Rated: rating stars)`; the entry
is deleted afterwards, so any subsequent message for the space is
ignored. -/
theorem C6_render_and_delete (spaceId z : String) (st : Nat)
    (σ : StateMap) (resp : SearchResponse)
    (hstate : σ spaceId = some ⟨st, z⟩) (hz : z ≠ "")
    (hcat : ∀ b ∈ resp.businesses, b.categories ≠ []) :
    (resp.businesses.map specBullet).length = resp.businesses.length ∧
    renderRestaurants resp =
      some ("Here are some options:\n\n" ++
        String.join (resp.businesses.map specBullet)) ∧
    (listRestaurants spaceId σ resp).sent =
      [(spaceId, "Here are some options:\n\n" ++
        String.join (resp.businesses.map specBullet))] ∧
    (listRestaurants spaceId σ resp).newState spaceId = none ∧
    (∀ appId userId content resp2,
      checkResponse appId spaceId userId content
          (listRestaurants spaceId σ resp).newState resp2 =
        ignored (listRestaurants spaceId σ resp).newState) := by
  have hmsg : renderRestaurants resp =
      some ("Here are some options:\n\n" ++
        String.join (resp.businesses.map specBullet)) := by
    simp [renderRestaurants, renderBullets_eq resp.businesses hcat]
  have hnone : (listRestaurants spaceId σ resp).newState spaceId = none := by
    simp [listRestaurants, hstate, hz, hmsg, setEntry]
  refine ⟨by simp, hmsg, ?_, hnone, ?_⟩
  · simp [listRestaurants, hstate, hz, hmsg]
  · intro appId userId content resp2
    exact checkResponse_of_noEntry appId spaceId userId content _ resp2 hnone

/-- C6 witness: a one-business response renders to a single message with
one bullet, and the conversation entry is gone afterwards. -/
theorem C6_witness :
    (listRestaurants "space-1" zipMap goodResp).sent =
      [("space-1", "Here are some options:\n\n" ++
        String.join (goodResp.businesses.map specBullet))] ∧
    (listRestaurants "space-1" zipMap goodResp).newState "space-1" = none :=
  ⟨(C6_render_and_delete "space-1" "10001" 2 zipMap goodResp (by decide)
      (by decide) (by decide)).2.2.1,
   (C6_render_and_delete "space-1" "10001" 2 zipMap goodResp (by decide)
      (by decide) (by decide)).2.2.2.1⟩

/-- C7: for a verification event, the response body is the JSON
serialization of the object with the echoed challenge under the key
`response`, and the `X-OUTBOUND-TOKEN` header is exactly the HMAC-SHA256
hex digest of that same body keyed by the configured webhook secret. -/
theorem C7_verification (webhookSecret challenge : String) :
    (verifyCallback webhookSecret challenge).body = stringifyBody challenge ∧
    (verifyCallback webhookSecret challenge).token =
      hmacSha256Hex webhookSecret ((verifyCallback webhookSecret challenge).body) :=
  ⟨rfl, rfl⟩

set_option maxRecDepth 100000 in
/-- Sanity anchor for the HMAC embedding: RFC 4231 test case 2. -/
theorem hmacSha256Hex_rfc4231_case2 :
    hmacSha256Hex "Jefe" "what do ya want for nothing?" =
      "5bdcc146bf60754e6a042426089575c75a003f089d2739839dec58b964ec3843" := by
  decide

/-- C8: both OAuth callbacks terminate the process exactly when the HTTP
status is not 200, and invoke the continuation with the parsed access
token exactly when it is 200. -/
theorem C8_auth_fatal (resp : AuthResponse) :
    (authenticateApp resp = .exit 1 ↔ resp.statusCode ≠ 200) ∧
    (authenticate resp = .exit 1 ↔ resp.statusCode ≠ 200) ∧
    (resp.statusCode = 200 →
      authenticateApp resp = .callback resp.accessToken ∧
      authenticate resp = .callback resp.accessToken) := by
  by_cases h : resp.statusCode = 200 <;>
    simp [authenticateApp, authenticate, h]

/-- C8 witness: a 500 terminates, a 200 hands the token on. -/
theorem C8_witness :
    authenticateApp ⟨500, "tok"⟩ = .exit 1 ∧
    authenticateApp ⟨200, "tok"⟩ = .callback "tok" ∧
    authenticate ⟨200, "tok"⟩ = .callback "tok" :=
  ⟨(C8_auth_fatal ⟨500, "tok"⟩).1.mpr (by decide),
   ((C8_auth_fatal ⟨200, "tok"⟩).2.2 rfl).1,
   ((C8_auth_fatal ⟨200, "tok"⟩).2.2 rfl).2⟩

/-- C9: at the zip-collection stage an empty reply is stored as the zip,
but being falsy it does not trigger a search: the zip prompt is sent
again and the entry stays at state 2 with the empty zip. -/
theorem C9_empty_zip (appId spaceId userId z : String)
    (σ : StateMap) (resp : SearchResponse)
    (hstate : σ spaceId = some ⟨2, z⟩) (huser : userId ≠ appId) :
    (checkResponse appId spaceId userId "" σ resp).newState spaceId =
      some ⟨2, ""⟩ ∧
    (checkResponse appId spaceId userId "" σ resp).sent =
      [(spaceId, WHICH_ZIP)] ∧
    (checkResponse appId spaceId userId "" σ resp).searches = [] := by
  have hz2 : (setZip σ spaceId "") spaceId = some ⟨2, ""⟩ := by
    simp [setZip, hstate]
  simp [checkResponse, hstate, jsFalsy, huser, listRestaurants, hz2, setEntry]

/-- C9 witness: an empty reply while awaiting the zip re-sends the zip
prompt and leaves the entry at state 2. -/
theorem C9_witness :
    (checkResponse "app" "space-1" "user" "" awaitZipMap respEmpty).newState
      "space-1" = some ⟨2, ""⟩ ∧
    (checkResponse "app" "space-1" "user" "" awaitZipMap respEmpty).sent =
      [("space-1", WHICH_ZIP)] ∧
    (checkResponse "app" "space-1" "user" "" awaitZipMap respEmpty).searches =
      [] :=
  C9_empty_zip "app" "space-1" "user" "" awaitZipMap respEmpty
    (by decide) (by decide)

/-- C10: rendering reads `categories[0].title` unguarded, so it succeeds
whenever every business has a category, and on a response containing a
category-less business the `forEach` throws: nothing is sent and the
conversation entry survives. -/
theorem C10_unguarded_category :
    (∀ resp : SearchResponse,
      (∀ b ∈ resp.businesses, b.categories ≠ []) →
      (renderRestaurants resp).isSome = true) ∧
    renderRestaurants badResp = none ∧
    (listRestaurants "space-1" zipMap badResp).sent = [] ∧
    (listRestaurants "space-1" zipMap badResp).newState "space-1" =
      some ⟨2, "10001"⟩ ∧
    (listRestaurants "space-1" zipMap badResp).crashed = true := by
  refine ⟨?_, by decide, by decide, by decide, by decide⟩
  intro resp h
  simp [renderRestaurants, renderBullets_eq resp.businesses h]

/-- C10 witness: on a response whose businesses all carry a category the
rendering succeeds. -/
theorem C10_witness : (renderRestaurants goodResp).isSome = true :=
  C10_unguarded_category.1 goodResp (by decide)
